import Mathlib

/-!
Shallow embedding of the expression model and source compiler of
`src/App.tsx` (michaseyi/expression-builder), together with theorems that
settle the specification claims about it.
-/

set_option maxHeartbeats 1000000

namespace ExpressionBuilder

/-- The declared result types: `type DataType = "number" | "string" | "boolean"`. -/
inductive DataType
  | number
  | string
  | boolean
deriving DecidableEq, Repr

/-- The closed operator set, `type OperationOperator = BooleanOperators | ArithmeticOperators`
with `BooleanOperators = ">" | ">=" | "<" | "<=" | "==" | "!=" | "and" | "or"` and
`ArithmeticOperators = "+" | "-" | "*" | "/"`. Each constructor stands for one
of the string literals; `text` recovers the literal. -/
inductive OperationOperator
  | plus
  | minus
  | mul
  | div
  | gt
  | ge
  | lt
  | le
  | eq
  | ne
  | andOp
  | orOp
deriving DecidableEq, Repr

/-- The operator symbol as written in the source strings. -/
def OperationOperator.text : OperationOperator → String
  | .plus => "+"
  | .minus => "-"
  | .mul => "*"
  | .div => "/"
  | .gt => ">"
  | .ge => ">="
  | .lt => "<"
  | .le => "<="
  | .eq => "=="
  | .ne => "!="
  | .andOp => "and"
  | .orOp => "or"

/-- A runtime literal value: `value: string | number | boolean`. Numeric literals
are modelled as integers (the mathematical content of `Number.prototype.toString`
on the integral values the program builds). -/
inductive LiteralValue
  | num (n : Int)
  | str (s : String)
  | bool (b : Bool)
deriving DecidableEq, Repr

/-- The expression tree, `type Expression = FunctionCall | Operation | Literal | Variable`.
Every variant carries its `return` field (here `ret`; `return` is reserved in Lean).
The `variable` variant is named `var`. -/
inductive Expression
  | function (name : String) (args : List Expression) (ret : DataType)
  | operation (operator : OperationOperator) (operands : List Expression) (ret : DataType)
  | literal (value : LiteralValue) (ret : DataType)
  | var (name : String) (ret : DataType)
deriving Repr

/-- Accessor for the `return` field common to all four variants. -/
def Expression.ret : Expression → DataType
  | .function _ _ r => r
  | .operation _ _ r => r
  | .literal _ r => r
  | .var _ r => r

/-- Source: `function isUnaryOperator(operator) { return operator === "-" }`. -/
def isUnaryOperator (operator : OperationOperator) : Bool :=
  operator == .minus

/-- Source: `function isArithmeticOperator(operator) { return ["+", "-", "*", "/"].includes(operator) }`. -/
def isArithmeticOperator (operator : OperationOperator) : Bool :=
  [OperationOperator.plus, OperationOperator.minus,
    OperationOperator.mul, OperationOperator.div].contains operator

/-- Source: `function isBooleanOperator(operator) { return !isArithmeticOperator(operator) }`. -/
def isBooleanOperator (operator : OperationOperator) : Bool :=
  !(isArithmeticOperator operator)

/-- JavaScript `Array.prototype.join(sep)`: empty list gives `""`, a single
element is returned as is, otherwise elements interleaved with `sep`. -/
def joinSep (sep : String) : List String → String
  | [] => ""
  | [x] => x
  | x :: y :: xs => x ++ sep ++ joinSep sep (y :: xs)

/-- Computes `form[0].toUpperCase() + form.substring(1)` for a nonempty string. -/
def capitalizeFirst (s : String) : String :=
  match s.data with
  | [] => ""
  | c :: cs => String.mk (c.toUpper :: cs)

/-- The literal branch of `buildSource`: a string value is wrapped in double
quotes verbatim, a number is printed with `toString`, a boolean is printed
with its first character upper-cased. -/
def renderLiteral : LiteralValue → String
  | .str s => "\"" ++ s ++ "\""
  | .num n => toString n
  | .bool b => capitalizeFirst (if b then "true" else "false")

/-- Source: `function buildSource(e: Expression): string`. The operation branch computes
`e.operands.slice(0, 2).map(buildSource)` (here written as a match on the first
two list cells, which is exactly what `slice(0, 2)` keeps), then renders the
unary form `(<op><operand0>)` — `operands[0]` of an empty array interpolates as
`"undefined"` — or the binary form joined with spaces around the operator. -/
def buildSource : Expression → String
  | .function name args _ =>
      name ++ "(" ++ joinSep ", " (args.attach.map fun a => buildSource a.1) ++ ")"
  | .literal value _ => renderLiteral value
  | .operation operator operands _ =>
      let rendered : List String :=
        match operands with
        | [] => []
        | [a] => [buildSource a]
        | a :: b :: _ => [buildSource a, buildSource b]
      if isUnaryOperator operator then
        "(" ++ operator.text ++ rendered.headD "undefined" ++ ")"
      else
        "(" ++ joinSep (" " ++ operator.text ++ " ") rendered ++ ")"
  | .var name _ => name
decreasing_by
  all_goals simp_wf
  · exact Nat.lt_trans (List.sizeOf_lt_of_mem a.2) (by omega)
  all_goals omega

/-- Source: `type RuleExpression = { id, priority, source, tree }`. -/
structure RuleExpression where
  id : String
  priority : Int
  source : String
  tree : Expression

/-- Source: `function buildRuleExpression(e, { id, priority })`. -/
def buildRuleExpression (e : Expression) (id : String) (priority : Int) :
    RuleExpression :=
  ⟨id, priority, buildSource e, e⟩

/-- Source: `function createLiteral(value, returnType)`. -/
def createLiteral (value : LiteralValue) (returnType : DataType) : Expression :=
  .literal value returnType

/-- Source: `function createVariable(name, returnType)`. -/
def createVariable (name : String) (returnType : DataType) : Expression :=
  .var name returnType

/-- Source: `function createFunction(name, args, returnType)`. -/
def createFunction (name : String) (args : List Expression) (returnType : DataType) :
    Expression :=
  .function name args returnType

/-- Source: `function createOperation(operator, operands)`: the `return` field is derived
from the operator, `isBooleanOperator(operator) ? "boolean" : "number"`. -/
def createOperation (operator : OperationOperator) (operands : List Expression) :
    Expression :=
  .operation operator operands
    (if isBooleanOperator operator then .boolean else .number)

/-- The render-relevant content of an expression: the variant tag together with
the `name`, `operator` and `value` fields, the (recursively reduced) argument
list of a function call, and only the first two operands of an operation. The
`return` fields are erased. Two expressions with the same `CoreExpr` differ at
most in `return` fields and in operation operands past index 1. -/
inductive CoreExpr
  | function (name : String) (args : List CoreExpr)
  | operation (operator : OperationOperator) (operands : List CoreExpr)
  | literal (value : LiteralValue)
  | var (name : String)
deriving Repr

/-- Erase every `return` field and truncate every operation operand list to its
first two entries. -/
def core : Expression → CoreExpr
  | .function name args _ =>
      .function name (args.attach.map fun a => core a.1)
  | .operation operator operands _ =>
      .operation operator
        (match operands with
         | [] => []
         | [a] => [core a]
         | a :: b :: _ => [core a, core b])
  | .literal value _ => .literal value
  | .var name _ => .var name
decreasing_by
  all_goals simp_wf
  · exact Nat.lt_trans (List.sizeOf_lt_of_mem a.2) (by omega)
  all_goals omega

/-- Render a `CoreExpr` with exactly the rules of `buildSource`. -/
def renderCore : CoreExpr → String
  | .function name args =>
      name ++ "(" ++ joinSep ", " (args.attach.map fun a => renderCore a.1) ++ ")"
  | .literal value => renderLiteral value
  | .operation operator operands =>
      let rendered : List String :=
        match operands with
        | [] => []
        | [a] => [renderCore a]
        | a :: b :: _ => [renderCore a, renderCore b]
      if isUnaryOperator operator then
        "(" ++ operator.text ++ rendered.headD "undefined" ++ ")"
      else
        "(" ++ joinSep (" " ++ operator.text ++ " ") rendered ++ ")"
  | .var name => name
decreasing_by
  all_goals simp_wf
  · exact Nat.lt_trans (List.sizeOf_lt_of_mem a.2) (by omega)
  all_goals omega

/-- Apply a fallible renderer to every element of a list, failing when any
element fails. -/
def mapFuel (f : Expression → Option String) : List Expression → Option (List String)
  | [] => some []
  | a :: l => do
      let s ← f a
      let rest ← mapFuel f l
      pure (s :: rest)

/-- Fuel-instrumented variant of `buildSource`: structurally recursive on the
fuel, returning `none` when the fuel is exhausted. It witnesses that the
recursion depth of the compiler is bounded by the size of the input tree. -/
def buildSourceFuel : Nat → Expression → Option String
  | 0, _ => none
  | fuel + 1, e =>
      match e with
      | .function name args _ => do
          let rs ← mapFuel (buildSourceFuel fuel) args
          pure (name ++ "(" ++ joinSep ", " rs ++ ")")
      | .literal value _ => pure (renderLiteral value)
      | .operation operator operands _ => do
          let rendered ←
            match operands with
            | [] => pure []
            | [a] => do
                let sa ← buildSourceFuel fuel a
                pure [sa]
            | a :: b :: _ => do
                let sa ← buildSourceFuel fuel a
                let sb ← buildSourceFuel fuel b
                pure [sa, sb]
          if isUnaryOperator operator then
            pure ("(" ++ operator.text ++ rendered.headD "undefined" ++ ")")
          else
            pure ("(" ++ joinSep (" " ++ operator.text ++ " ") rendered ++ ")")
      | .var name _ => pure name

end ExpressionBuilder

namespace ExpressionBuilder

/-! Unfolding lemmas for the well-founded definitions. -/

theorem buildSource_var_eq (name : String) (r : DataType) :
    buildSource (.var name r) = name := by
  simp [buildSource]

theorem buildSource_literal_eq (value : LiteralValue) (r : DataType) :
    buildSource (.literal value r) = renderLiteral value := by
  simp [buildSource]

theorem buildSource_function_eq (name : String) (args : List Expression) (r : DataType) :
    buildSource (.function name args r) =
      name ++ "(" ++ joinSep ", " (args.map buildSource) ++ ")" := by
  rw [buildSource]
  rw [List.attach_map_val]

theorem buildSource_operation_eq (operator : OperationOperator)
    (operands : List Expression) (r : DataType) :
    buildSource (.operation operator operands r) =
      (if isUnaryOperator operator then
        "(" ++ operator.text ++
          (((operands.take 2).map buildSource).headD "undefined") ++ ")"
      else
        "(" ++ joinSep (" " ++ operator.text ++ " ")
          ((operands.take 2).map buildSource) ++ ")") := by
  match operands with
  | [] => simp [buildSource]
  | [a] => simp [buildSource]
  | a :: b :: rest => simp [buildSource]

/-- C1: for every expression tree and every id and priority,
`buildRuleExpression(tree, {id, priority})` returns the record
`{id, priority, source, tree}` in which `source` equals `compile(tree)` and
`tree` is the unchanged input expression (the construction is pure: no field
is altered, nothing is mutated). -/
theorem buildRuleExpression_spec (e : Expression) (id : String) (priority : Int) :
    (buildRuleExpression e id priority).id = id ∧
    (buildRuleExpression e id priority).priority = priority ∧
    (buildRuleExpression e id priority).source =
      buildSource (buildRuleExpression e id priority).tree ∧
    (buildRuleExpression e id priority).tree = e :=
  ⟨rfl, rfl, rfl, rfl⟩

/-- C3: with the correct operand count, a unary operation (operator `-`, one
operand) compiles to `(<op><operand>)` with no space between operator and
operand, and a binary operation (two operands) compiles to
`(<left> <op> <right>)` with single spaces around the operator, the operands
compiled recursively. -/
theorem buildSource_operation_rendering (operator : OperationOperator)
    (a b : Expression) (r : DataType) :
    (isUnaryOperator operator = true →
      buildSource (.operation operator [a] r) =
        "(" ++ operator.text ++ buildSource a ++ ")") ∧
    (isUnaryOperator operator = false →
      buildSource (.operation operator [a, b] r) =
        "(" ++ buildSource a ++ " " ++ operator.text ++ " " ++ buildSource b ++ ")") := by
  constructor <;> intro h <;>
    simp [buildSource_operation_eq, h, joinSep, String.append_assoc]

/-- Witness for C3: `compile` of `+` applied to literals 1 and 2 is `(1 + 2)`
and `compile` of `-` applied to literal 5 is `(-5)`. -/
theorem buildSource_operation_rendering_witness :
    (isUnaryOperator OperationOperator.minus = true ∧
      buildSource (.operation OperationOperator.minus
        [.literal (.num 5) DataType.number] DataType.number) = "(-5)") ∧
    (isUnaryOperator OperationOperator.plus = false ∧
      buildSource (.operation OperationOperator.plus
        [.literal (.num 1) DataType.number, .literal (.num 2) DataType.number]
        DataType.number) = "(1 + 2)") := by
  constructor
  · refine ⟨rfl, ?_⟩
    have h := (buildSource_operation_rendering OperationOperator.minus
      (.literal (.num 5) DataType.number) (.literal (.num 5) DataType.number)
      DataType.number).1 rfl
    rw [h, buildSource_literal_eq]
    decide
  · refine ⟨rfl, ?_⟩
    have h := (buildSource_operation_rendering OperationOperator.plus
      (.literal (.num 1) DataType.number) (.literal (.num 2) DataType.number)
      DataType.number).2 rfl
    rw [h, buildSource_literal_eq, buildSource_literal_eq]
    decide

/-- C4: a literal compiles as follows: a string value is wrapped in double
quotes verbatim with no escaping of embedded quotes (the value is embedded
character for character), a number value in its decimal textual form, and a
boolean value with only the first character upper-cased: `true` as `True` and
`false` as `False`. -/
theorem buildSource_literal_spec :
    (∀ (s : String) (r : DataType),
      buildSource (.literal (.str s) r) = "\"" ++ s ++ "\"") ∧
    (∀ (n : Int) (r : DataType),
      buildSource (.literal (.num n) r) = toString n) ∧
    (∀ (r : DataType), buildSource (.literal (.bool true) r) = "True") ∧
    (∀ (r : DataType), buildSource (.literal (.bool false) r) = "False") := by
  refine ⟨?_, ?_, ?_, ?_⟩ <;> intros <;> rw [buildSource_literal_eq] <;> rfl

/-- C5: a function call compiles to `<name>(<arg1>, <arg2>, ..., <argN>)`,
each argument compiled recursively and the results joined with `", "`; with
zero arguments it compiles to `<name>()`. -/
theorem buildSource_function_spec (name : String) (args : List Expression)
    (r : DataType) :
    buildSource (.function name args r) =
      name ++ "(" ++ joinSep ", " (args.map buildSource) ++ ")" ∧
    buildSource (.function name [] r) = name ++ "()" := by
  refine ⟨buildSource_function_eq name args r, ?_⟩
  rw [buildSource_function_eq]
  have h2 : "(" ++ ")" = "()" := by decide
  simp [joinSep, String.append_assoc, h2]

/-- C6: over the closed operator type (the recognized symbols
`+ - * / > >= < <= == != and or`), exactly one of `isArithmeticOperator` and
`isBooleanOperator` holds for every operator — a total, mutually exclusive
partition with `+ - * /` arithmetic and the rest boolean — and
`isUnaryOperator` holds exactly for `-`. -/
theorem operator_partition (op : OperationOperator) :
    ((isArithmeticOperator op = true ∧ isBooleanOperator op = false) ∨
      (isArithmeticOperator op = false ∧ isBooleanOperator op = true)) ∧
    (isUnaryOperator op = true ↔ op = OperationOperator.minus) := by
  cases op <;> decide

/-- C7: `createOperation` derives the `return` field from the operator rather
than taking it from the caller (it has no return-type parameter): a
boolean/comparison operator yields `boolean`, an arithmetic operator yields
`number`. -/
theorem createOperation_return_derived (op : OperationOperator)
    (operands : List Expression) :
    (isBooleanOperator op = true →
      (createOperation op operands).ret = DataType.boolean) ∧
    (isArithmeticOperator op = true →
      (createOperation op operands).ret = DataType.number) := by
  constructor <;> intro h
  · simp [createOperation, Expression.ret, h]
  · have h2 : isBooleanOperator op = false := by
      simp [isBooleanOperator, h]
    simp [createOperation, Expression.ret, h2]

/-- Witness for C7 at the operators `and` (boolean) and `+` (arithmetic). -/
theorem createOperation_return_derived_witness :
    (isBooleanOperator OperationOperator.andOp = true ∧
      (createOperation OperationOperator.andOp []).ret = DataType.boolean) ∧
    (isArithmeticOperator OperationOperator.plus = true ∧
      (createOperation OperationOperator.plus []).ret = DataType.number) :=
  ⟨⟨by decide, (createOperation_return_derived OperationOperator.andOp []).1 (by decide)⟩,
   ⟨by decide, (createOperation_return_derived OperationOperator.plus []).2 (by decide)⟩⟩

/-- C2, behaviour of the code at the claimed failing inputs: an
arity-mismatched operation does not make the compile fail. The
`console.assert` calls do not abort, no error value is produced, and
`buildSource` still returns text: `-` applied to literals 1 and 2 compiles to
`(-1)` (the second operand is dropped) and `+` applied to the single literal 1
compiles to `(1)`. -/
theorem buildSource_arity_mismatch_behavior :
    buildSource (.operation OperationOperator.minus
      [.literal (.num 1) DataType.number, .literal (.num 2) DataType.number]
      DataType.number) = "(-1)" ∧
    buildSource (.operation OperationOperator.plus
      [.literal (.num 1) DataType.number] DataType.number) = "(1)" := by
  constructor <;>
    · rw [buildSource_operation_eq]
      simp [buildSource_literal_eq]
      decide

/-- C9: for every tree built from the four recognized variants, `buildSource`
totally returns a string even when an operation's operand count violates its
operator's arity: a binary operation with exactly one operand compiles to
`(<operand>)` with no operator in the output, and a unary operation with two
operands compiles using only the first operand. (In this embedding
`buildSource` is a total function into `String`, so the absence of any other
failure is intrinsic; the source's `default` throw corresponds to no
constructor of the closed `Expression` type.) -/
theorem buildSource_arity_mismatch_renders (operator : OperationOperator)
    (a b : Expression) (r : DataType) :
    (isUnaryOperator operator = false →
      buildSource (.operation operator [a] r) = "(" ++ buildSource a ++ ")") ∧
    (isUnaryOperator operator = true →
      buildSource (.operation operator [a, b] r) =
        "(" ++ operator.text ++ buildSource a ++ ")") := by
  constructor <;> intro h <;> simp [buildSource_operation_eq, h, joinSep]

theorem core_function_eq (name : String) (args : List Expression) (r : DataType) :
    core (.function name args r) = .function name (args.map core) := by
  rw [core]
  rw [List.attach_map_val]

theorem core_operation_eq (operator : OperationOperator)
    (operands : List Expression) (r : DataType) :
    core (.operation operator operands r) =
      .operation operator ((operands.take 2).map core) := by
  match operands with
  | [] => simp [core]
  | [a] => simp [core]
  | a :: b :: rest => simp [core]

theorem renderCore_function_eq (name : String) (args : List CoreExpr) :
    renderCore (.function name args) =
      name ++ "(" ++ joinSep ", " (args.map renderCore) ++ ")" := by
  rw [renderCore]
  rw [List.attach_map_val]

theorem renderCore_operation_eq (operator : OperationOperator)
    (operands : List CoreExpr) :
    renderCore (.operation operator operands) =
      (if isUnaryOperator operator then
        "(" ++ operator.text ++
          (((operands.take 2).map renderCore).headD "undefined") ++ ")"
      else
        "(" ++ joinSep (" " ++ operator.text ++ " ")
          ((operands.take 2).map renderCore) ++ ")") := by
  match operands with
  | [] => simp [renderCore]
  | [a] => simp [renderCore]
  | a :: b :: rest => simp [renderCore]

theorem buildSource_eq_renderCore (e : Expression) :
    buildSource e = renderCore (core e) := by
  have H : ∀ (n : Nat) (e : Expression), sizeOf e ≤ n →
      buildSource e = renderCore (core e) := by
    intro n
    induction n with
    | zero => intro e he; exfalso; cases e <;> simp at he
    | succ n ih =>
        intro e he
        match e with
        | .var name r => simp [buildSource_var_eq, core, renderCore]
        | .literal v r => simp [buildSource_literal_eq, core, renderCore]
        | .function name args r =>
            rw [buildSource_function_eq, core_function_eq, renderCore_function_eq,
              List.map_map]
            have hlist : args.map buildSource = args.map (renderCore ∘ core) := by
              apply List.map_congr_left
              intro a ha
              have hs := List.sizeOf_lt_of_mem ha
              simp at he
              exact ih a (by omega)
            rw [hlist]
        | .operation op operands r =>
            have hlist : (operands.take 2).map buildSource =
                (((operands.take 2).map core).take 2).map renderCore := by
              have hcollapse : ((operands.take 2).map core).take 2 =
                  (operands.take 2).map core := by
                simp [List.map_take, List.take_take]
              rw [hcollapse, List.map_map]
              apply List.map_congr_left
              intro a ha
              have ha2 : a ∈ operands := List.mem_of_mem_take ha
              have hs := List.sizeOf_lt_of_mem ha2
              simp at he
              exact ih a (by omega)
            rw [buildSource_operation_eq, core_operation_eq, renderCore_operation_eq,
              hlist]
  exact H (sizeOf e) e (Nat.le_refl _)

/-- C8: `buildSource` is pure, deterministic and purely structural: its output
is a function of the variant tags and of the `operator`, `value` and `name`
fields together with the compiled first two operands of each operation —
exactly the data kept by `core`. Two invocations on the same tree trivially
agree (`core` is reflexively equal), and two trees that differ only in
`return` fields or in operation operands past index 1 have equal `core` and
hence compile to the same text. -/
theorem buildSource_structural (e1 e2 : Expression) (h : core e1 = core e2) :
    buildSource e1 = buildSource e2 := by
  rw [buildSource_eq_renderCore, buildSource_eq_renderCore, h]

/-- Witness for C8: two trees differing only in `return` fields and in a third
operand have the same `core` and compile to the same text. -/
theorem buildSource_structural_witness :
    core (Expression.operation OperationOperator.plus
      [Expression.literal (LiteralValue.num 1) DataType.number,
        Expression.literal (LiteralValue.num 2) DataType.number,
        Expression.literal (LiteralValue.num 99) DataType.number]
      DataType.number) =
      core (Expression.operation OperationOperator.plus
        [Expression.literal (LiteralValue.num 1) DataType.boolean,
          Expression.literal (LiteralValue.num 2) DataType.number]
        DataType.boolean) ∧
    buildSource (Expression.operation OperationOperator.plus
      [Expression.literal (LiteralValue.num 1) DataType.number,
        Expression.literal (LiteralValue.num 2) DataType.number,
        Expression.literal (LiteralValue.num 99) DataType.number]
      DataType.number) =
      buildSource (Expression.operation OperationOperator.plus
        [Expression.literal (LiteralValue.num 1) DataType.boolean,
          Expression.literal (LiteralValue.num 2) DataType.number]
        DataType.boolean) :=
  ⟨by simp [core], buildSource_structural _ _ (by simp [core])⟩

theorem mapFuel_buildSourceFuel_eq (fuel : Nat) (l : List Expression)
    (h : ∀ a ∈ l, buildSourceFuel fuel a = some (buildSource a)) :
    mapFuel (buildSourceFuel fuel) l = some (l.map buildSource) := by
  induction l with
  | nil => simp [mapFuel]
  | cons a l ih =>
      simp [mapFuel, h a (by simp), ih (fun b hb => h b (by simp [hb]))]

/-- C10: the compiler terminates on every finite tree, with recursion depth
bounded by the size of the tree: the fuel-instrumented compiler already
succeeds — and agrees with the total function `buildSource` — whenever the
fuel is at least `sizeOf` of the input. -/
theorem buildSource_terminates (fuel : Nat) (e : Expression)
    (h : sizeOf e ≤ fuel) :
    buildSourceFuel fuel e = some (buildSource e) := by
  induction fuel generalizing e with
  | zero => exfalso; cases e <;> simp at h
  | succ fuel ih =>
      match e with
      | .var name r => simp [buildSourceFuel, buildSource_var_eq]
      | .literal v r => simp [buildSourceFuel, buildSource_literal_eq]
      | .function name args r =>
          have hargs : ∀ a ∈ args, buildSourceFuel fuel a = some (buildSource a) := by
            intro a ha
            have hs := List.sizeOf_lt_of_mem ha
            simp at h
            exact ih a (by omega)
          rw [buildSource_function_eq]
          simp [buildSourceFuel, mapFuel_buildSourceFuel_eq fuel args hargs]
      | .operation op operands r =>
          rw [buildSource_operation_eq]
          match operands with
          | [] =>
              simp [buildSourceFuel, apply_ite]
              split <;> simp_all
          | [a] =>
              have hs : sizeOf a < sizeOf [a] := List.sizeOf_lt_of_mem (by simp)
              have ha : buildSourceFuel fuel a = some (buildSource a) := by
                simp at h hs
                exact ih a (by omega)
              simp [buildSourceFuel, ha, apply_ite]
              split <;> simp_all
          | a :: b :: rest =>
              have hsa : sizeOf a < sizeOf (a :: b :: rest) :=
                List.sizeOf_lt_of_mem (by simp)
              have hsb : sizeOf b < sizeOf (a :: b :: rest) :=
                List.sizeOf_lt_of_mem (by simp)
              have ha : buildSourceFuel fuel a = some (buildSource a) := by
                simp at h hsa
                exact ih a (by omega)
              have hb : buildSourceFuel fuel b = some (buildSource b) := by
                simp at h hsb
                exact ih b (by omega)
              simp [buildSourceFuel, ha, hb, apply_ite]
              split <;> simp_all

/-- Witness for C10 on a small concrete tree. -/
theorem buildSource_terminates_witness :
    sizeOf (Expression.operation OperationOperator.plus
      [Expression.literal (LiteralValue.num 1) DataType.number,
        Expression.literal (LiteralValue.num 2) DataType.number]
      DataType.number) ≤ 50 ∧
    buildSourceFuel 50 (Expression.operation OperationOperator.plus
      [Expression.literal (LiteralValue.num 1) DataType.number,
        Expression.literal (LiteralValue.num 2) DataType.number]
      DataType.number) =
      some (buildSource (Expression.operation OperationOperator.plus
        [Expression.literal (LiteralValue.num 1) DataType.number,
          Expression.literal (LiteralValue.num 2) DataType.number]
        DataType.number)) :=
  ⟨by decide, buildSource_terminates 50
    (Expression.operation OperationOperator.plus
      [Expression.literal (LiteralValue.num 1) DataType.number,
        Expression.literal (LiteralValue.num 2) DataType.number]
      DataType.number) (by decide)⟩

/-- Witness for C9: `+` with one operand compiles to `(7)`; `-` with two
operands compiles to `(-9)`. -/
theorem buildSource_arity_mismatch_renders_witness :
    (isUnaryOperator OperationOperator.plus = false ∧
      buildSource (.operation OperationOperator.plus
        [.literal (.num 7) DataType.number] DataType.number) = "(7)") ∧
    (isUnaryOperator OperationOperator.minus = true ∧
      buildSource (.operation OperationOperator.minus
        [.literal (.num 9) DataType.number, .literal (.num 3) DataType.number]
        DataType.number) = "(-9)") := by
  constructor
  · refine ⟨rfl, ?_⟩
    have h := (buildSource_arity_mismatch_renders OperationOperator.plus
      (.literal (.num 7) DataType.number) (.literal (.num 7) DataType.number)
      DataType.number).1 rfl
    rw [h, buildSource_literal_eq]
    decide
  · refine ⟨rfl, ?_⟩
    have h := (buildSource_arity_mismatch_renders OperationOperator.minus
      (.literal (.num 9) DataType.number) (.literal (.num 3) DataType.number)
      DataType.number).2 rfl
    rw [h, buildSource_literal_eq]
    decide

end ExpressionBuilder
